import Mathlib

set_option maxHeartbeats 1000000

/-!
Formal model of the request/response transport layer of `pan/wfapi.py`
(pan-python): multipart form-data construction (`_MultiPartFormData`,
`_FormDataPart`), response classification (`__set_response` and friends),
HTTP reason-phrase substitution, and the nine public client operations of
`PanWFapi`.  Python byte strings are modelled as `List UInt8`; Python
strings as `String`; stateful methods as explicit state passing on a
record of the response fields of a `PanWFapi` instance; the network
exchange, the file system and the XML parser of the standard library are
injected as function parameters.
-/

abbrev Byte := UInt8

/-- Model of CPython utf-8 encoding of a single code point (`str.encode`). -/
def utf8EncodeChar (c : Char) : List Byte :=
  let n := c.toNat
  if n < 0x80 then [UInt8.ofNat n]
  else if n < 0x800 then
    [UInt8.ofNat (0xC0 ||| (n >>> 6)), UInt8.ofNat (0x80 ||| (n &&& 0x3F))]
  else if n < 0x10000 then
    [UInt8.ofNat (0xE0 ||| (n >>> 12)), UInt8.ofNat (0x80 ||| ((n >>> 6) &&& 0x3F)),
      UInt8.ofNat (0x80 ||| (n &&& 0x3F))]
  else
    [UInt8.ofNat (0xF0 ||| (n >>> 18)), UInt8.ofNat (0x80 ||| ((n >>> 12) &&& 0x3F)),
      UInt8.ofNat (0x80 ||| ((n >>> 6) &&& 0x3F)), UInt8.ofNat (0x80 ||| (n &&& 0x3F))]

/-- Model of Python `s.encode` with utf-8. -/
def strBytes (s : String) : List Byte :=
  (s.data.map utf8EncodeChar).flatten

/-- Model of Python `s.encode` with latin-1: fails (raises `UnicodeEncodeError`,
here `none`) when a code point does not fit in one byte. -/
def encodeLatin1 (s : String) : Option (List Byte) :=
  s.data.mapM (fun c => if c.toNat < 256 then some (UInt8.ofNat c.toNat) else none)

/-- Model of strict CPython utf-8 decoding, one code point at a time; `none`
is a `UnicodeDecodeError`.  The first argument is fuel (the byte count
suffices since at least one byte is consumed per step). -/
def utf8DecodeAux : Nat → List Byte → Option (List Char)
  | _, [] => some []
  | 0, _ :: _ => none
  | fuel+1, b0 :: rest =>
    let n0 := b0.toNat
    if n0 < 0x80 then
      (utf8DecodeAux fuel rest).map (fun cs => Char.ofNat n0 :: cs)
    else if 0xC2 ≤ n0 ∧ n0 ≤ 0xDF then
      match rest with
      | b1 :: rest1 =>
        if 0x80 ≤ b1.toNat ∧ b1.toNat ≤ 0xBF then
          (utf8DecodeAux fuel rest1).map (fun cs =>
            Char.ofNat ((n0 - 0xC0) * 64 + (b1.toNat - 0x80)) :: cs)
        else none
      | [] => none
    else if 0xE0 ≤ n0 ∧ n0 ≤ 0xEF then
      match rest with
      | b1 :: b2 :: rest2 =>
        let lo1 := if n0 = 0xE0 then 0xA0 else 0x80
        let hi1 := if n0 = 0xED then 0x9F else 0xBF
        if (lo1 ≤ b1.toNat ∧ b1.toNat ≤ hi1) ∧ (0x80 ≤ b2.toNat ∧ b2.toNat ≤ 0xBF) then
          (utf8DecodeAux fuel rest2).map (fun cs =>
            Char.ofNat ((n0 - 0xE0) * 4096 + (b1.toNat - 0x80) * 64 + (b2.toNat - 0x80)) :: cs)
        else none
      | _ => none
    else if 0xF0 ≤ n0 ∧ n0 ≤ 0xF4 then
      match rest with
      | b1 :: b2 :: b3 :: rest3 =>
        let lo1 := if n0 = 0xF0 then 0x90 else 0x80
        let hi1 := if n0 = 0xF4 then 0x8F else 0xBF
        if (lo1 ≤ b1.toNat ∧ b1.toNat ≤ hi1) ∧ (0x80 ≤ b2.toNat ∧ b2.toNat ≤ 0xBF) ∧
            (0x80 ≤ b3.toNat ∧ b3.toNat ≤ 0xBF) then
          (utf8DecodeAux fuel rest3).map (fun cs =>
            Char.ofNat ((n0 - 0xF0) * 262144 + (b1.toNat - 0x80) * 4096 +
              (b2.toNat - 0x80) * 64 + (b3.toNat - 0x80)) :: cs)
        else none
      | _ => none
    else none

/-- Model of Python `bytes.decode` with utf-8. -/
def utf8Decode (l : List Byte) : Option String :=
  (utf8DecodeAux l.length l).map List.asString

/-- Model of Python `bytes.decode` ascii-style total reading of ASCII
bytes back to text (used only for the always-ASCII multipart boundary). -/
def latin1Decode (l : List Byte) : String :=
  (l.map (fun b => Char.ofNat b.toNat)).asString

/-- The CRLF byte pair used throughout the multipart wire format. -/
def crlf : List Byte := [13, 10]

/-- The two ASCII dashes `--`. -/
def ddash : List Byte := [45, 45]

/-! Splitting a byte string on a separator sequence, used to state the
round-trip property of the multipart body (splitting the body on
`--boundary` recovers the parts that were serialized into it). -/

/-- Leftmost occurrence split: `some (before, after)` when `sep` occurs in
`l`, splitting around the leftmost occurrence; `none` otherwise. -/
def splitFirst {α : Type} [DecidableEq α] (sep : List α) : List α → Option (List α × List α)
  | [] => none
  | a :: t =>
    if sep.isPrefixOf (a :: t) then some ([], (a :: t).drop sep.length)
    else
      match splitFirst sep t with
      | some (b, aft) => some (a :: b, aft)
      | none => none

/-- Fuelled iterated split on a separator (one byte at least is consumed per
step, so `l.length` fuel suffices). -/
def splitSegFuel {α : Type} [DecidableEq α] (sep : List α) : Nat → List α → List (List α)
  | 0, l => [l]
  | fuel+1, l =>
    match splitFirst sep l with
    | none => [l]
    | some (b, aft) => b :: splitSegFuel sep fuel aft

/-- Split a list on every occurrence of the separator sequence `sep`
(leftmost-first, non-overlapping), like Python `bytes.split(sep)`. -/
def splitOnSeg {α : Type} [DecidableEq α] (sep l : List α) : List (List α) :=
  splitSegFuel sep l.length l

/-- Model of `sep` has no occurrence in `x ++ sep` starting strictly before the end
of `x` (so scanning `x ++ sep ++ anything` finds `sep` exactly at `x`). -/
def noEarlyOcc {α : Type} [DecidableEq α] (sep x : List α) : Prop :=
  ∀ i, i < x.length → ¬ sep <+: ((x ++ sep).drop i)

instance {α : Type} [DecidableEq α] (sep x : List α) : Decidable (noEarlyOcc sep x) := by
  unfold noEarlyOcc
  exact Nat.decidableBallLT _ _

theorem take_append_short {α : Type} (xs ys : List α) (n : Nat) (h : n ≤ xs.length) :
    (xs ++ ys).take n = xs.take n := by
  induction xs generalizing n with
  | nil =>
    have : n = 0 := Nat.le_zero.mp (by simpa using h)
    subst this
    simp
  | cons a t ih =>
    cases n with
    | zero => simp
    | succ m =>
      simp only [List.cons_append, List.take_succ_cons]
      rw [ih]
      exact Nat.le_of_succ_le_succ h

theorem prefix_shorten {α : Type} (a b c : List α) (h : a <+: b ++ c)
    (hl : a.length ≤ b.length) : a <+: b := by
  have h1 : a = (b ++ c).take a.length := List.prefix_iff_eq_take.mp h
  have h2 : b.take a.length = a := by
    rw [take_append_short b c a.length hl] at h1
    exact h1.symm
  exact h2 ▸ List.take_prefix a.length b

theorem splitFirst_sep_head {α : Type} [DecidableEq α] (sep y : List α) (hs : sep ≠ []) :
    splitFirst sep (sep ++ y) = some ([], y) := by
  match sep, hs with
  | s0 :: st, _ =>
    show splitFirst (s0 :: st) (s0 :: (st ++ y)) = _
    rw [splitFirst]
    have hp : (s0 :: st).isPrefixOf (s0 :: (st ++ y)) = true := by
      rw [List.isPrefixOf_iff_prefix]
      exact List.prefix_append _ _
    simp only [hp, if_true]
    congr 1
    have : (s0 :: (st ++ y)) = (s0 :: st) ++ y := by simp
    rw [this, List.drop_left]

theorem splitFirst_mid {α : Type} [DecidableEq α] (sep x y : List α) (hs : sep ≠ [])
    (hx : noEarlyOcc sep x) : splitFirst sep (x ++ sep ++ y) = some (x, y) := by
  induction x with
  | nil =>
    rw [List.nil_append]
    exact splitFirst_sep_head sep y hs
  | cons a t ih =>
    have hne : ¬ sep.isPrefixOf (a :: t ++ sep ++ y) = true := by
      rw [List.isPrefixOf_iff_prefix]
      intro hpre
      have hlen : sep.length ≤ ((a :: t) ++ sep).length := by
        simp [List.length_append]
        omega
      have hpre2 : sep <+: ((a :: t) ++ sep) := by
        apply prefix_shorten sep ((a :: t) ++ sep) y _ hlen
        simpa [List.append_assoc] using hpre
      have h0 := hx 0 (by simp)
      simp only [List.drop_zero] at h0
      exact h0 hpre2
    have hx' : noEarlyOcc sep t := by
      intro i hi hpre
      have := hx (i + 1) (by simpa using Nat.succ_lt_succ hi)
      apply this
      simpa using hpre
    show splitFirst sep (a :: (t ++ sep ++ y)) = _
    rw [splitFirst]
    rw [if_neg (by simpa using hne)]
    rw [ih hx']

theorem splitFirst_short {α : Type} [DecidableEq α] (sep z : List α)
    (h : z.length < sep.length) : splitFirst sep z = none := by
  induction z with
  | nil => rfl
  | cons a t ih =>
    rw [splitFirst]
    have hne : ¬ sep.isPrefixOf (a :: t) = true := by
      rw [List.isPrefixOf_iff_prefix]
      intro hpre
      have := hpre.length_le
      omega
    rw [if_neg hne, ih (by simp at h ⊢; omega)]

theorem splitSegFuel_tail {α : Type} [DecidableEq α] (sep dd : List α) (hs : sep ≠ [])
    (hdd : dd.length < sep.length) :
    ∀ (cs : List (List α)) (fuel : Nat), (∀ c ∈ cs, noEarlyOcc sep c) →
      cs.length < fuel →
      splitSegFuel sep fuel ((cs.map (fun c => c ++ sep)).flatten ++ dd) = cs ++ [dd] := by
  intro cs
  induction cs with
  | nil =>
    intro fuel _ hfuel
    cases fuel with
    | zero => omega
    | succ f =>
      simp only [List.map_nil, List.flatten_nil, List.nil_append]
      rw [splitSegFuel, splitFirst_short sep dd hdd]
  | cons c cs' ih =>
    intro fuel hno hfuel
    cases fuel with
    | zero => simp at hfuel
    | succ f =>
      have hbody : ((c :: cs').map (fun c => c ++ sep)).flatten ++ dd
          = c ++ sep ++ ((cs'.map (fun c => c ++ sep)).flatten ++ dd) := by
        simp [List.append_assoc]
      have hf2 : cs'.length < f := by
        simp only [List.length_cons] at hfuel
        omega
      rw [hbody, splitSegFuel,
        splitFirst_mid sep c _ hs (hno c (by simp))]
      show c :: splitSegFuel sep f ((cs'.map (fun c => c ++ sep)).flatten ++ dd)
          = c :: cs' ++ [dd]
      rw [ih f (fun d hd => hno d (by simp [hd])) hf2]
      simp

theorem foldl_append_flatten {α β : Type} (g : β → List α) (ps : List β) :
    ∀ acc : List α, ps.foldl (fun acc p => acc ++ g p) acc = acc ++ (ps.map g).flatten := by
  induction ps with
  | nil => intro acc; simp
  | cons p ps' ih =>
    intro acc
    simp only [List.foldl_cons, List.map_cons, List.flatten_cons]
    rw [ih]
    simp [List.append_assoc]

theorem flatten_sep_shift {α : Type} (sep dd : List α) :
    ∀ cs : List (List α),
      (cs.map (fun c => sep ++ c)).flatten ++ (sep ++ dd)
        = sep ++ ((cs.map (fun c => c ++ sep)).flatten ++ dd) := by
  intro cs
  induction cs with
  | nil => simp
  | cons c cs' ih =>
    simp only [List.map_cons, List.flatten_cons, List.append_assoc] at ih ⊢
    rw [ih]

/-! ### The multipart form-data model (`_FormDataPart`, `_MultiPartFormData`) -/

/-- Python values accepted where the source takes either `str` or `bytes`
(`_FormDataPart.add_body` branches on `isinstance(body, str)`). -/
inductive PyData where
  | str (s : String)
  | bytes (b : List Byte)
deriving DecidableEq

/-- One section of a multipart body: ordered header lines (byte strings)
and an optional raw body (`_FormDataPart`). -/
structure FormDataPart where
  headers : List (List Byte)
  body : Option (List Byte)
deriving DecidableEq

/-- Model of `_FormDataPart._encode_field` with the module default
`_rfc2231_encode = False`: percent-format `name="value"` encoded utf-8. -/
def encode_field (name value : String) : List Byte :=
  strBytes (name ++ "=\x22" ++ value ++ "\x22")

/-- Model of `_FormDataPart.add_header`: append a raw header line. -/
def FormDataPart.add_header (p : FormDataPart) (h : List Byte) : FormDataPart :=
  { p with headers := p.headers ++ [h] }

/-- Model of `_FormDataPart.append_header`: append a chunk to the last header line
(all call sites have at least one header line). -/
def FormDataPart.append_header (p : FormDataPart) (name value : String) : FormDataPart :=
  { p with headers :=
      p.headers.dropLast ++ [p.headers.getLastD [] ++ strBytes ("; ") ++ encode_field name value] }

/-- Model of `_FormDataPart.add_body`: a `str` body is encoded latin-1 (which can
raise `UnicodeEncodeError`, modelled by `none`); a `bytes` body is stored
as is. -/
def FormDataPart.add_body (p : FormDataPart) (body : PyData) : Option FormDataPart :=
  match body with
  | .str s => (encodeLatin1 s).map (fun b => { p with body := some b })
  | .bytes b => some { p with body := some b }

/-- The header part of `_FormDataPart.__init__(name, body=None)`: a
Content-Disposition line with the `name` attribute appended, no body yet. -/
def FormDataPart.mkBase (name : String) : FormDataPart :=
  let p : FormDataPart := { headers := [], body := none }
  let p := p.add_header (strBytes ("Content-Disposition: form-data"))
  p.append_header ("name") name

/-- Model of `_FormDataPart.__init__(name, body)` in full. -/
def FormDataPart.init (name : String) (body : Option PyData) : Option FormDataPart :=
  match body with
  | none => some (FormDataPart.mkBase name)
  | some b => (FormDataPart.mkBase name).add_body b

/-- Model of `_FormDataPart.serialize`: headers joined by CRLF, a blank line, then
the body when present. -/
def FormDataPart.serialize (p : FormDataPart) : List Byte :=
  (List.intercalate crlf p.headers) ++ crlf ++ crlf ++ p.body.getD []

/-- Model of `_MultiPartFormData`: ordered parts and the boundary token.  The source
draws the boundary in `_boundary()` as 16 underscores followed by the
base64 encoding of 48 `os.urandom` bytes; the randomness is injected here
as the `boundary` field supplied at construction. -/
structure MultiPartFormData where
  boundary : List Byte
  parts : List FormDataPart
deriving DecidableEq

/-- Model of `_MultiPartFormData.__init__` with the random boundary injected. -/
def MultiPartFormData.init (boundary : List Byte) : MultiPartFormData :=
  { boundary := boundary, parts := [] }

/-- Model of `_MultiPartFormData.add_field(name, value)`. -/
def MultiPartFormData.add_field (f : MultiPartFormData) (name value : String) :
    Option MultiPartFormData :=
  (FormDataPart.init name (some (.str value))).map
    (fun p => { f with parts := f.parts ++ [p] })

/-- Model of `_MultiPartFormData.add_file(filename=None, body=None)`: the part is
named `file`; the filename attribute is appended only when given, and the
`Content-Type: application/octet-stream` header and the body only when a
body is given. -/
def MultiPartFormData.add_file (f : MultiPartFormData) (filename : Option String)
    (body : Option PyData) : Option MultiPartFormData :=
  let p := FormDataPart.mkBase ("file")
  let p := match filename with
    | some fn => p.append_header ("filename") fn
    | none => p
  match body with
  | some b =>
    ((p.add_header (strBytes ("Content-Type: application/octet-stream"))).add_body b).map
      (fun p2 => { f with parts := f.parts ++ [p2] })
  | none => some { f with parts := f.parts ++ [p] }

/-- Model of `_MultiPartFormData.http_headers` (the boundary is always ASCII). -/
def MultiPartFormData.http_headers (f : MultiPartFormData) : List (String × String) :=
  [("Content-Type", "multipart/form-data; boundary=" ++ latin1Decode f.boundary)]

/-- Model of `_MultiPartFormData.http_body`: for each part `--boundary CRLF part CRLF`,
then the closing `--boundary--`, written into a byte buffer. -/
def MultiPartFormData.http_body (f : MultiPartFormData) : List Byte :=
  let boundary := ddash ++ f.boundary
  (f.parts.foldl (fun bio part => bio ++ boundary ++ crlf ++ part.serialize ++ crlf) [])
    ++ boundary ++ ddash

/-! ### Response state and classification (`PanWFapi.__set_response` family)

The response fields held on a `PanWFapi` instance.  `X` is the type of the
parsed XML element returned by the standard library parser
`xml.etree.ElementTree.fromstring`, which is injected as a function
parameter below. -/

structure WFState (X : Type) where
  msg : Option String
  http_code : Option Nat
  http_reason : Option String
  response_body : Option String
  response_type : Option String
  xml_element_root : Option X
  attachment : Option (String × List Byte)
deriving DecidableEq

/-- The state with every response field unset. -/
def WFState.empty {X : Type} : WFState X :=
  { msg := none, http_code := none, http_reason := none, response_body := none,
    response_type := none, xml_element_root := none, attachment := none }

/-- Model of `PanWFapi.__clear_response`: reset every response field to `None`. -/
def clear_response {X : Type} (_st : WFState X) : WFState X :=
  WFState.empty

/-- Outcome of one of the `__set_*_response` methods: a returned boolean, or
an uncaught Python exception (`UnicodeDecodeError`) escaping the method. -/
inductive SetResult where
  | ok (b : Bool)
  | exc (e : String)
deriving DecidableEq

/-- The decoded pieces of one HTTP response that the classifier consumes:
status code, reason phrase, `get_content_type()` and `get_filename()` of the
parsed header block, and the raw body bytes. -/
structure HttpResponse where
  code : Nat
  reason : String
  contentType : String
  filename : Option String
  body : List Byte
deriving DecidableEq

/-- Model of `PanWFapi.__set_stream_response`: store the attachment, or fail with the
missing-header message when `get_filename()` is `None` or empty (falsy). -/
def set_stream_response {X : Type} (resp : HttpResponse) (st : WFState X) :
    SetResult × WFState X :=
  match resp.filename with
  | none => (.ok false, { st with msg := some ("no content-disposition response header") })
  | some fn =>
    if fn = "" then
      (.ok false, { st with msg := some ("no content-disposition response header") })
    else
      (.ok true, { st with attachment := some (fn, resp.body) })

/-- Model of `PanWFapi.__set_xml_response`: tag the response as xml; an empty body is
an immediate success; otherwise store the decoded body, strip leading CR/LF
bytes, and parse, storing the element on success. -/
def set_xml_response {X : Type} (fromstring : List Byte → Except String X)
    (message_body : List Byte) (st : WFState X) : SetResult × WFState X :=
  let st := { st with response_type := some ("xml") }
  match utf8Decode message_body with
  | none => (.exc ("UnicodeDecodeError"), st)
  | some s =>
    if s.length = 0 then (.ok true, st)
    else
      let st := { st with response_body := some s }
      let stripped := message_body.dropWhile (fun b => b == 13 || b == 10)
      if stripped.length = 0 then (.ok true, st)
      else
        match fromstring stripped with
        | .error m =>
          (.ok false, { st with msg := some ("ElementTree.fromstring ParseError: " ++ m) })
        | .ok el => (.ok true, { st with xml_element_root := some el })

/-- Common shape of `__set_json_response`, `__set_html_response` and
`__set_txt_response`: tag the response, and store the decoded body unless
it is empty. -/
def set_text_response {X : Type} (tag : String) (message_body : List Byte)
    (st : WFState X) : SetResult × WFState X :=
  let st := { st with response_type := some tag }
  match utf8Decode message_body with
  | none => (.exc ("UnicodeDecodeError"), st)
  | some s =>
    if s.length = 0 then (.ok true, st)
    else (.ok true, { st with response_body := some s })

/-- Model of `PanWFapi.__set_json_response`. -/
def set_json_response {X : Type} (message_body : List Byte) (st : WFState X) :
    SetResult × WFState X :=
  set_text_response ("json") message_body st

/-- Model of `PanWFapi.__set_html_response`. -/
def set_html_response {X : Type} (message_body : List Byte) (st : WFState X) :
    SetResult × WFState X :=
  set_text_response ("html") message_body st

/-- Model of `PanWFapi.__set_txt_response`. -/
def set_txt_response {X : Type} (message_body : List Byte) (st : WFState X) :
    SetResult × WFState X :=
  set_text_response ("txt") message_body st

/-- Model of `PanWFapi.__set_response`: dispatch on the declared content type. -/
def set_response {X : Type} (fromstring : List Byte → Except String X)
    (resp : HttpResponse) (st : WFState X) : SetResult × WFState X :=
  if resp.contentType = "" then
    (.ok false,
      if st.msg = none then { st with msg := some ("no content-type response header") } else st)
  else if resp.contentType = "application/octet-stream" then
    set_stream_response resp st
  else if resp.contentType = "application/xml" ∨ resp.contentType = "text/xml" then
    set_xml_response fromstring resp.body st
  else if resp.contentType = "application/json" then
    set_json_response resp.body st
  else if resp.contentType = "text/html" then
    set_html_response resp.body st
  else if resp.contentType = "text/plain" then
    set_txt_response resp.body st
  else
    (.ok false, { st with msg := some ("no handler for content-type: " ++ resp.contentType) })

/-! ### Reason-phrase substitution and the request wrapper -/

/-- The module table `_wildfire_responses`. -/
def wildfire_responses (code : Nat) : Option String :=
  if code = 418 then some ("Unsupported File Type") else none

/-- Model of the Python standard registry `http.client.responses`
(`{ HTTPStatus.value : HTTPStatus.phrase }`), modelled from the standard
library documentation. -/
def std_responses (code : Nat) : Option String :=
  match code with
  | 100 => some ("Continue")
  | 101 => some ("Switching Protocols")
  | 102 => some ("Processing")
  | 103 => some ("Early Hints")
  | 200 => some ("OK")
  | 201 => some ("Created")
  | 202 => some ("Accepted")
  | 203 => some ("Non-Authoritative Information")
  | 204 => some ("No Content")
  | 205 => some ("Reset Content")
  | 206 => some ("Partial Content")
  | 300 => some ("Multiple Choices")
  | 301 => some ("Moved Permanently")
  | 302 => some ("Found")
  | 303 => some ("See Other")
  | 304 => some ("Not Modified")
  | 305 => some ("Use Proxy")
  | 307 => some ("Temporary Redirect")
  | 308 => some ("Permanent Redirect")
  | 400 => some ("Bad Request")
  | 401 => some ("Unauthorized")
  | 402 => some ("Payment Required")
  | 403 => some ("Forbidden")
  | 404 => some ("Not Found")
  | 405 => some ("Method Not Allowed")
  | 406 => some ("Not Acceptable")
  | 407 => some ("Proxy Authentication Required")
  | 408 => some ("Request Timeout")
  | 409 => some ("Conflict")
  | 410 => some ("Gone")
  | 411 => some ("Length Required")
  | 412 => some ("Precondition Failed")
  | 413 => some ("Payload Too Large")
  | 414 => some ("URI Too Long")
  | 415 => some ("Unsupported Media Type")
  | 416 => some ("Range Not Satisfiable")
  | 417 => some ("Expectation Failed")
  | 418 => some ("I\x27m a Teapot")
  | 421 => some ("Misdirected Request")
  | 422 => some ("Unprocessable Entity")
  | 429 => some ("Too Many Requests")
  | 500 => some ("Internal Server Error")
  | 501 => some ("Not Implemented")
  | 502 => some ("Bad Gateway")
  | 503 => some ("Service Unavailable")
  | 504 => some ("Gateway Timeout")
  | 505 => some ("HTTP Version Not Supported")
  | _ => none

/-- The reason-phrase substitution of `PanWFapi.__api_request` (lines
345-349): an empty reason phrase is replaced from `_wildfire_responses`
first, then from the standard registry `responses`. -/
def resolve_http_reason (code : Nat) (reason : String) : String :=
  if reason = "" then
    match wildfire_responses code with
    | some r => r
    | none =>
      match std_responses code with
      | some r => r
      | none => reason
  else reason

/-- The request handed to `urllib` (URL, body bytes, extra headers). -/
structure WFRequest where
  url : String
  body : List Byte
  headers : List (String × String)

/-- Outcome of `PanWFapi.__api_request`: a response object to classify, a
falsy return (`self._msg` explains), or an uncaught exception. -/
inductive ApiOutcome where
  | response (r : HttpResponse)
  | failed
  | crashed (e : String)

/-- Model of `PanWFapi.__api_request`: build the URL, perform the exchange (injected
as `ex`, whose `Except.error` covers `ssl.CertificateError`, `URLError`
and `IOError` with the stored message), record status code and substituted
reason phrase, and classify the body of a non-2xx response before failing. -/
def api_request {X : Type} (fromstring : List Byte → Except String X)
    (ex : WFRequest → Except String HttpResponse) (uriBase request_uri : String)
    (body : List Byte) (headers : List (String × String)) (st : WFState X) :
    ApiOutcome × WFState X :=
  let url := uriBase ++ request_uri
  match ex { url := url, body := body, headers := headers } with
  | .error e => (.failed, { st with msg := some e })
  | .ok resp =>
    let st := { st with http_code := some resp.code,
                        http_reason := some (resolve_http_reason resp.code resp.reason) }
    if 200 ≤ resp.code ∧ resp.code < 300 then (.response resp, st)
    else
      let st := { st with msg := some ("HTTP Error (" ++ toString resp.code ++ "): "
        ++ resolve_http_reason resp.code resp.reason) }
      match set_response fromstring resp st with
      | (.exc e, st2) => (.crashed e, st2)
      | (.ok _, st2) => (.failed, st2)

/-! ### Query-string encoding and small Python helpers -/

/-- Uppercase hex digit. -/
def hexDigitU (n : Nat) : Char :=
  if n < 10 then Char.ofNat (48 + n) else Char.ofNat (55 + n)

/-- Percent-encoding of one byte under `urllib.parse.quote_plus` with the
default safe set (letters, digits, `_.-~`; space becomes `+`). -/
def quote_plus_byte (b : Byte) : List Char :=
  let n := b.toNat
  if (65 ≤ n ∧ n ≤ 90) ∨ (97 ≤ n ∧ n ≤ 122) ∨ (48 ≤ n ∧ n ≤ 57)
      ∨ n = 95 ∨ n = 46 ∨ n = 45 ∨ n = 126 then
    [Char.ofNat n]
  else if n = 32 then [Char.ofNat 43]
  else [Char.ofNat 37, hexDigitU (n / 16), hexDigitU (n % 16)]

/-- Model of `urllib.parse.quote_plus` on a string. -/
def quote_plus (s : String) : String :=
  (((strBytes s).map quote_plus_byte).flatten).asString

/-- Model of `urllib.parse.urlencode` on an ordered key/value list. -/
def urlencode (q : List (String × String)) : String :=
  String.intercalate ("&") (q.map (fun kv => quote_plus kv.1 ++ "=" ++ quote_plus kv.2))

/-- Model of posix `os.path.basename`. -/
def basename (p : String) : String :=
  (p.splitOn ("/")).getLastD ("")

/-- Python truthiness of a string. -/
def pyBoolStr (s : String) : Bool :=
  !(s == "")

/-- Python truthiness of an optional string argument (`None` is falsy). -/
def pyBoolOptStr : Option String → Bool
  | none => false
  | some s => pyBoolStr s

/-- Python truthiness of an optional list argument (`None` and `[]` falsy). -/
def pyBoolOptList : Option (List String) → Bool
  | none => false
  | some l => !(l.isEmpty)

/-! ### The client operations (`PanWFapi.report` ... `change_request`) -/

/-- The resolved configuration a `PanWFapi` instance carries: API key,
optional agent string, and the `self.uri` scheme-plus-host prefix. -/
structure WFConfig where
  api_key : String
  agent : Option String
  uriBase : String

/-- Outcome of one public operation: normal return, a raised
`PanWFapiError` (carrying `self._msg` or a literal message), or an
uncaught exception. -/
inductive OpResult where
  | ok
  | raised (msg : Option String)
  | crashed (e : String)

/-- The shared tail of every operation: fail on a falsy `__api_request`
result, otherwise classify and fail when classification returns false. -/
def finish_request {X : Type} (fromstring : List Byte → Except String X)
    (out : ApiOutcome × WFState X) : OpResult × WFState X :=
  match out with
  | (.failed, st) => (.raised st.msg, st)
  | (.crashed e, st) => (.crashed e, st)
  | (.response resp, st) =>
    match set_response fromstring resp st with
    | (.ok true, st2) => (.ok, st2)
    | (.ok false, st2) => (.raised st2.msg, st2)
    | (.exc e, st2) => (.crashed e, st2)

/-- Pair a key with an optional value, yielding zero or one query entries. -/
def optEntry (key : String) : Option String → List (String × String)
  | none => []
  | some v => [(key, v)]

/-- Model of `PanWFapi.report`. -/
def PanWFapi.report {X : Type} (fromstring : List Byte → Except String X)
    (ex : WFRequest → Except String HttpResponse) (cfg : WFConfig)
    (hash format url : Option String) (st : WFState X) : OpResult × WFState X :=
  let st := clear_response st
  let request_uri := "/publicapi/get/report"
  let query := [("apikey", cfg.api_key)] ++ optEntry ("agent") cfg.agent
    ++ optEntry ("hash") hash ++ optEntry ("format") format ++ optEntry ("url") url
  finish_request fromstring
    (api_request fromstring ex cfg.uriBase request_uri (strBytes (urlencode query)) [] st)

/-- Model of `PanWFapi.verdict`. -/
def PanWFapi.verdict {X : Type} (fromstring : List Byte → Except String X)
    (ex : WFRequest → Except String HttpResponse) (cfg : WFConfig)
    (hash url : Option String) (st : WFState X) : OpResult × WFState X :=
  let st := clear_response st
  let request_uri := "/publicapi/get/verdict"
  let query := [("apikey", cfg.api_key)] ++ optEntry ("agent") cfg.agent
    ++ optEntry ("hash") hash ++ optEntry ("url") url
  finish_request fromstring
    (api_request fromstring ex cfg.uriBase request_uri (strBytes (urlencode query)) [] st)

/-- Model of `PanWFapi.verdicts_changed`. -/
def PanWFapi.verdicts_changed {X : Type} (fromstring : List Byte → Except String X)
    (ex : WFRequest → Except String HttpResponse) (cfg : WFConfig)
    (date : Option String) (st : WFState X) : OpResult × WFState X :=
  let st := clear_response st
  let request_uri := "/publicapi/get/verdicts/changed"
  let query := [("apikey", cfg.api_key)] ++ optEntry ("agent") cfg.agent
    ++ optEntry ("date") date
  finish_request fromstring
    (api_request fromstring ex cfg.uriBase request_uri (strBytes (urlencode query)) [] st)

/-- Model of `PanWFapi.sample`. -/
def PanWFapi.sample {X : Type} (fromstring : List Byte → Except String X)
    (ex : WFRequest → Except String HttpResponse) (cfg : WFConfig)
    (hash : Option String) (st : WFState X) : OpResult × WFState X :=
  let st := clear_response st
  let request_uri := "/publicapi/get/sample"
  let query := [("apikey", cfg.api_key)] ++ optEntry ("agent") cfg.agent
    ++ optEntry ("hash") hash
  finish_request fromstring
    (api_request fromstring ex cfg.uriBase request_uri (strBytes (urlencode query)) [] st)

/-- Model of `PanWFapi.pcap`. -/
def PanWFapi.pcap {X : Type} (fromstring : List Byte → Except String X)
    (ex : WFRequest → Except String HttpResponse) (cfg : WFConfig)
    (hash platform : Option String) (st : WFState X) : OpResult × WFState X :=
  let st := clear_response st
  let request_uri := "/publicapi/get/pcap"
  let query := [("apikey", cfg.api_key)] ++ optEntry ("agent") cfg.agent
    ++ optEntry ("hash") hash ++ optEntry ("platform") platform
  finish_request fromstring
    (api_request fromstring ex cfg.uriBase request_uri (strBytes (urlencode query)) [] st)

/-- Model of `PanWFapi.testfile`. -/
def PanWFapi.testfile {X : Type} (fromstring : List Byte → Except String X)
    (ex : WFRequest → Except String HttpResponse) (cfg : WFConfig)
    (file_type : Option String) (st : WFState X) : OpResult × WFState X :=
  let st := clear_response st
  let request_uri := "/publicapi/test/" ++ (match file_type with
    | none => "pe"
    | some t => t)
  finish_request fromstring
    (api_request fromstring ex cfg.uriBase request_uri (strBytes (urlencode [])) [] st)

/-- Failure modes while building a multipart form in an operation. -/
inductive FormFail where
  | readfail (m : String)
  | unicode
deriving DecidableEq

/-- Lift the optional result of a form-building step, turning the `none` of
a failed latin-1 encode into an uncaught `UnicodeEncodeError`. -/
def ofOpt {α : Type} : Option α → Except FormFail α
  | some a => .ok a
  | none => .error .unicode

/-- The form built by `PanWFapi.verdicts`. -/
def verdicts_form (cfg : WFConfig) (bnd : List Byte) (hashes : Option (List String)) :
    Except FormFail MultiPartFormData := do
  let form := MultiPartFormData.init bnd
  let form ← ofOpt (form.add_field ("apikey") cfg.api_key)
  let form ← match cfg.agent with
    | some a => ofOpt (form.add_field ("agent") a)
    | none => pure form
  match hashes with
  | some hs => ofOpt (form.add_field ("file") (String.intercalate ("\n") hs))
  | none => pure form

/-- Run an operation whose request is a multipart form: a failed latin-1
field encode crashes, a failed file read raises, otherwise the form is
serialized and sent. -/
def runForm {X : Type} (fromstring : List Byte → Except String X)
    (ex : WFRequest → Except String HttpResponse) (uriBase request_uri : String)
    (formRes : Except FormFail MultiPartFormData) (st : WFState X) : OpResult × WFState X :=
  match formRes with
  | .error .unicode => (.crashed ("UnicodeEncodeError"), st)
  | .error (.readfail m) => (.raised (some m), { st with msg := some m })
  | .ok form =>
    finish_request fromstring
      (api_request fromstring ex uriBase request_uri form.http_body form.http_headers st)

/-- Model of `PanWFapi.verdicts`. -/
def PanWFapi.verdicts {X : Type} (fromstring : List Byte → Except String X)
    (ex : WFRequest → Except String HttpResponse) (cfg : WFConfig) (bnd : List Byte)
    (hashes : Option (List String)) (st : WFState X) : OpResult × WFState X :=
  let st := clear_response st
  runForm fromstring ex cfg.uriBase ("/publicapi/get/verdicts") (verdicts_form cfg bnd hashes) st

/-- The form built by `PanWFapi.change_request`. -/
def change_request_form (cfg : WFConfig) (bnd : List Byte)
    (hash verdict email comment : Option String) : Except FormFail MultiPartFormData := do
  let form := MultiPartFormData.init bnd
  let form ← ofOpt (form.add_field ("apikey") cfg.api_key)
  let form ← match cfg.agent with
    | some a => ofOpt (form.add_field ("agent") a)
    | none => pure form
  let form ← match hash with
    | some h => ofOpt (form.add_field ("hash") h)
    | none => pure form
  let form ← match verdict with
    | some v => ofOpt (form.add_field ("verdict") v)
    | none => pure form
  let form ← match email with
    | some e => ofOpt (form.add_field ("email") e)
    | none => pure form
  match comment with
  | some c => ofOpt (form.add_field ("comment") c)
  | none => pure form

/-- Model of `PanWFapi.change_request`. -/
def PanWFapi.change_request {X : Type} (fromstring : List Byte → Except String X)
    (ex : WFRequest → Except String HttpResponse) (cfg : WFConfig) (bnd : List Byte)
    (hash verdict email comment : Option String) (st : WFState X) : OpResult × WFState X :=
  let st := clear_response st
  runForm fromstring ex cfg.uriBase ("/publicapi/submit/change-request")
    (change_request_form cfg bnd hash verdict email comment) st

/-- The endpoint selection of `PanWFapi.submit` (lines 559-566); `none`
models the `TypeError` of `len(None)`, unreachable past the precondition. -/
def submit_uri (file url : Option String) (links : Option (List String)) : Option String :=
  if file.isSome then some ("/publicapi/submit/file")
  else if url.isSome then some ("/publicapi/submit/url")
  else match links with
    | none => none
    | some ls =>
      if ls.length < 2 then some ("/publicapi/submit/link")
      else some ("/publicapi/submit/links")

/-- The form built by `PanWFapi.submit` (lines 568-594): apikey and agent
fields, then the file contents, the url field, or the link payload, where a
multi-link payload is prefixed with the magic `panlnk` marker line unless
already present as the first element. -/
def submit_form (readFile : String → Except String (List Byte)) (cfg : WFConfig)
    (bnd : List Byte) (file url : Option String) (links : Option (List String)) :
    Except FormFail MultiPartFormData := do
  let form := MultiPartFormData.init bnd
  let form ← ofOpt (form.add_field ("apikey") cfg.api_key)
  let form ← match cfg.agent with
    | some a => ofOpt (form.add_field ("agent") a)
    | none => pure form
  let form ← match file with
    | some fp =>
      match readFile fp with
      | .error e => .error (.readfail ("open: " ++ fp ++ ": " ++ e))
      | .ok buf => ofOpt (form.add_file (some (basename fp)) (some (.bytes buf)))
    | none => pure form
  let form ← match url with
    | some u => ofOpt (form.add_field ("url") u)
    | none => pure form
  match links with
  | none => pure form
  | some ls =>
    if ls.length = 1 then ofOpt (form.add_field ("link") (ls.headD ("")))
    else if ls.length > 1 then
      if ls.headD ("") = "panlnk" then
        ofOpt (form.add_file (some ("pan")) (some (.str (String.intercalate ("\n") ls))))
      else
        ofOpt (form.add_file (some ("pan"))
          (some (.str ("panlnk" ++ "\n" ++ String.intercalate ("\n") ls))))
    else pure form

/-- Model of `PanWFapi.submit`: clear the state, enforce the exactly-one-of
precondition by truthiness, select the endpoint, build the form, send. -/
def PanWFapi.submit {X : Type} (fromstring : List Byte → Except String X)
    (ex : WFRequest → Except String HttpResponse)
    (readFile : String → Except String (List Byte)) (cfg : WFConfig) (bnd : List Byte)
    (file url : Option String) (links : Option (List String)) (st : WFState X) :
    OpResult × WFState X :=
  let st := clear_response st
  if (cond (pyBoolOptStr file) 1 0) + (cond (pyBoolOptStr url) 1 0)
      + (cond (pyBoolOptList links) 1 0) ≠ 1 then
    (.raised (some ("must submit one of file, url or links")), st)
  else
    match submit_uri file url links with
    | none => (.crashed ("TypeError"), st)
    | some request_uri =>
      runForm fromstring ex cfg.uriBase request_uri
        (submit_form readFile cfg bnd file url links) st

/-! ### Theorems.  C2: the multipart body wire format and its round trip. -/

theorem length_le_flatten_map {α : Type} (sep : List α) (hs : 1 ≤ sep.length)
    (cs : List (List α)) :
    cs.length ≤ (cs.map (fun c => c ++ sep)).flatten.length := by
  induction cs with
  | nil => simp
  | cons c cs' ih =>
    simp only [List.map_cons, List.flatten_cons, List.length_append, List.length_cons]
    omega

theorem splitOnSeg_multipart {α : Type} [DecidableEq α] (sep dd : List α)
    (hs2 : 2 ≤ sep.length) (hdd : dd.length < sep.length) (cs : List (List α))
    (hcs : ∀ c ∈ cs, noEarlyOcc sep c) :
    splitOnSeg sep ((cs.map (fun c => sep ++ c)).flatten ++ (sep ++ dd))
      = [] :: (cs ++ [dd]) := by
  have hs : sep ≠ [] := by
    intro h
    rw [h] at hs2
    simp at hs2
  rw [flatten_sep_shift]
  rw [splitOnSeg]
  have hflat := length_le_flatten_map sep (by omega) cs
  have hlen : (sep ++ ((cs.map (fun c => c ++ sep)).flatten ++ dd)).length
      = sep.length + ((cs.map (fun c => c ++ sep)).flatten.length + dd.length) := by
    simp [List.length_append]
  obtain ⟨n, hn⟩ : ∃ n, (sep ++ ((cs.map (fun c => c ++ sep)).flatten ++ dd)).length = n + 1 := by
    refine ⟨(sep ++ ((cs.map (fun c => c ++ sep)).flatten ++ dd)).length - 1, ?_⟩
    rw [hlen]
    omega
  rw [hn]
  rw [splitSegFuel, splitFirst_sep_head sep _ hs]
  show [] :: splitSegFuel sep n ((cs.map (fun c => c ++ sep)).flatten ++ dd)
      = [] :: (cs ++ [dd])
  congr 1
  apply splitSegFuel_tail sep dd hs hdd cs n hcs
  rw [hlen] at hn
  omega

theorem trim_crlf_wrap (s : List Byte) :
    (((crlf ++ (s ++ crlf)).drop 2).take (((crlf ++ (s ++ crlf)).drop 2).length - 2)) = s := by
  have h2 : (crlf ++ (s ++ crlf)).drop 2 = s ++ crlf := by
    have hc : crlf.length = 2 := rfl
    rw [← hc, List.drop_left]
  rw [h2]
  have h3 : (s ++ crlf).length - 2 = s.length := by
    simp [List.length_append, crlf]
  rw [h3]
  have hc2 : (s ++ crlf).take s.length = s := List.take_left s crlf
  exact hc2

/-- C2: `http_body` is exactly, for each part in order,
`--boundary CRLF part.serialize() CRLF`, followed by the closing
`--boundary--` with no trailing CRLF; consequently splitting the body on
`--boundary` (under the no-collision hypothesis that the separator has no
early occurrence inside any wrapped part) yields an empty lead chunk, the
CRLF-wrapped serialized parts in their original order, and the closing
`--`, from which trimming the CRLF wrapping recovers exactly the ordered
serialized parts (header block plus body) that were added. -/
theorem C2_http_body_roundtrip (f : MultiPartFormData)
    (hb : f.boundary ≠ [])
    (hparts : ∀ p ∈ f.parts,
      noEarlyOcc (ddash ++ f.boundary) (crlf ++ (p.serialize ++ crlf))) :
    f.http_body
      = ((f.parts.map (fun p => (ddash ++ f.boundary) ++ (crlf ++ (p.serialize ++ crlf)))).flatten)
        ++ ((ddash ++ f.boundary) ++ ddash)
    ∧ splitOnSeg (ddash ++ f.boundary) f.http_body
      = [] :: ((f.parts.map (fun p => crlf ++ (p.serialize ++ crlf))) ++ [ddash])
    ∧ ((((splitOnSeg (ddash ++ f.boundary) f.http_body).drop 1).dropLast).map
        (fun c => (c.drop 2).take ((c.drop 2).length - 2)))
      = f.parts.map (fun p => p.serialize) := by
  have hbl : 0 < f.boundary.length := List.length_pos.mpr hb
  have hs2 : 2 ≤ (ddash ++ f.boundary).length := by
    simp [List.length_append, ddash]
  have hddlen : ddash.length < (ddash ++ f.boundary).length := by
    simp [List.length_append, ddash]
    omega
  have hfun : (fun (bio : List Byte) (part : FormDataPart) =>
        bio ++ (ddash ++ f.boundary) ++ crlf ++ part.serialize ++ crlf)
      = (fun bio part =>
        bio ++ ((ddash ++ f.boundary) ++ (crlf ++ (part.serialize ++ crlf)))) := by
    funext bio part
    simp [List.append_assoc]
  have h1 : f.http_body
      = ((f.parts.map (fun p =>
            (ddash ++ f.boundary) ++ (crlf ++ (p.serialize ++ crlf)))).flatten)
        ++ ((ddash ++ f.boundary) ++ ddash) := by
    show (f.parts.foldl (fun bio part =>
        bio ++ (ddash ++ f.boundary) ++ crlf ++ part.serialize ++ crlf) [])
        ++ (ddash ++ f.boundary) ++ ddash = _
    rw [hfun, foldl_append_flatten
      (fun p => (ddash ++ f.boundary) ++ (crlf ++ (p.serialize ++ crlf))) f.parts []]
    simp [List.append_assoc]
  have hmm : (f.parts.map (fun p =>
        (ddash ++ f.boundary) ++ (crlf ++ (p.serialize ++ crlf))))
      = (f.parts.map (fun p => crlf ++ (p.serialize ++ crlf))).map
          (fun c => (ddash ++ f.boundary) ++ c) := by
    rw [List.map_map]
    rfl
  have hsplit : splitOnSeg (ddash ++ f.boundary) f.http_body
      = [] :: ((f.parts.map (fun p => crlf ++ (p.serialize ++ crlf))) ++ [ddash]) := by
    have hbody : f.http_body
        = (((f.parts.map (fun p => crlf ++ (p.serialize ++ crlf))).map
            (fun c => (ddash ++ f.boundary) ++ c)).flatten)
          ++ ((ddash ++ f.boundary) ++ ddash) := by
      rw [h1, hmm]
    rw [hbody]
    apply splitOnSeg_multipart (ddash ++ f.boundary) ddash hs2 hddlen
    intro c hc
    obtain ⟨p, hp, rfl⟩ := List.mem_map.mp hc
    exact hparts p hp
  refine ⟨h1, hsplit, ?_⟩
  rw [hsplit]
  have hdrop : (([] :: ((f.parts.map (fun p => crlf ++ (p.serialize ++ crlf))) ++ [ddash])).drop 1)
      = (f.parts.map (fun p => crlf ++ (p.serialize ++ crlf))) ++ [ddash] := rfl
  rw [hdrop]
  have hdl : ((f.parts.map (fun p => crlf ++ (p.serialize ++ crlf))) ++ [ddash]).dropLast
      = f.parts.map (fun p => crlf ++ (p.serialize ++ crlf)) := by
    simp
  rw [hdl, List.map_map]
  apply List.map_congr_left
  intro p _
  exact trim_crlf_wrap p.serialize

/-! ### C9: reason-phrase substitution -/

/-- C9: when the HTTP reason phrase is empty, the stored reason is
substituted from the local table first — the non-standard code 418 resolves
to `Unsupported File Type`, taking precedence over the standard registry
(which maps 418 to its own phrase) — and a code found only in the standard
registry resolves to its standard phrase; a non-empty reason phrase is kept
verbatim.  The last conjunct grounds the substitution in `api_request`:
a 418 response with an empty reason phrase stores
`Unsupported File Type` as `http_reason`. -/
theorem C9_reason_substitution {X : Type} (fromstring : List Byte → Except String X)
    (st : WFState X) (uriBase request_uri : String) (body : List Byte)
    (hdrs : List (String × String)) (code : Nat) (p r : String)
    (hw : wildfire_responses code = none) (hstd : std_responses code = some p)
    (hr : r ≠ "") :
    resolve_http_reason 418 "" = "Unsupported File Type"
    ∧ std_responses 418 = some ("I\x27m a Teapot")
    ∧ resolve_http_reason code ("") = p
    ∧ resolve_http_reason code r = r
    ∧ (api_request fromstring (fun _ => Except.ok
        { code := 418, reason := "", contentType := "text/plain", filename := none, body := [] })
        uriBase request_uri body hdrs st).2.http_reason
      = some ("Unsupported File Type") := by
  refine ⟨rfl, rfl, ?_, ?_, rfl⟩
  · rw [resolve_http_reason, if_pos rfl, hw, hstd]
  · rw [resolve_http_reason, if_neg hr]

/-- Witness for C9 at code 404 (standard registry only) and reason `OK`. -/
theorem C9_witness :
    wildfire_responses 404 = none
    ∧ std_responses 404 = some ("Not Found")
    ∧ ("OK" : String) ≠ ""
    ∧ (resolve_http_reason 418 "" = "Unsupported File Type"
      ∧ std_responses 418 = some ("I\x27m a Teapot")
      ∧ resolve_http_reason 404 "" = "Not Found"
      ∧ resolve_http_reason 404 "OK" = "OK"
      ∧ (api_request (fun _ => Except.ok (() : Unit))
          (fun _ => Except.ok
            { code := 418, reason := "", contentType := "text/plain", filename := none, body := [] })
          "https://wildfire.paloaltonetworks.com" "/publicapi/get/report" [] [] WFState.empty).2.http_reason
        = some ("Unsupported File Type")) :=
  ⟨rfl, rfl, by decide,
    C9_reason_substitution (fun _ => Except.ok (() : Unit))
      WFState.empty ("https://wildfire.paloaltonetworks.com") "/publicapi/get/report" [] []
      404 "Not Found" "OK" rfl rfl (by decide)⟩

/-! ### C7: empty XML body is a success with nothing populated -/

/-- C7: a response declared `text/xml` (or `application/xml`) with an empty
body classifies successfully, raising no error, populating neither the XML
root nor the response body (only the response-type tag is set). -/
theorem C7_empty_xml_success {X : Type} (fromstring : List Byte → Except String X)
    (ct : String) (hct : ct = "text/xml" ∨ ct = "application/xml")
    (code : Nat) (reason : String) (fn : Option String) :
    set_response fromstring
      { code := code, reason := reason, contentType := ct, filename := fn, body := [] }
      WFState.empty
      = (.ok true, { WFState.empty with response_type := some ("xml") }) := by
  rcases hct with h | h <;> subst h <;> rfl

/-- Witness for C7 at `text/xml`. -/
theorem C7_witness :
    (("text/xml" : String) = "text/xml" ∨ ("text/xml" : String) = "application/xml")
    ∧ set_response (fun _ => Except.ok (() : Unit))
        { code := 200, reason := "OK", contentType := "text/xml", filename := none, body := [] }
        WFState.empty
      = (.ok true, { WFState.empty with response_type := some ("xml") }) :=
  ⟨Or.inl rfl,
    C7_empty_xml_success (fun _ => Except.ok ()) "text/xml" (Or.inl rfl) 200 "OK" none⟩

/-! ### C8: octet-stream without a filename -/

/-- C8: a response declared `application/octet-stream` whose
Content-Disposition filename is absent (or empty, hence falsy) fails
classification with the missing-header message — a returned error, not a
crash — and leaves the attachment field untouched (unpopulated when the
state was cleared). -/
theorem C8_missing_filename {X : Type} (fromstring : List Byte → Except String X)
    (st : WFState X) (fn : Option String) (hfn : fn = none ∨ fn = some (""))
    (code : Nat) (reason : String) (body : List Byte) :
    set_response fromstring
      { code := code, reason := reason, contentType := "application/octet-stream",
        filename := fn, body := body } st
      = (.ok false, { st with msg := some ("no content-disposition response header") })
    ∧ (set_response fromstring
        { code := code, reason := reason, contentType := "application/octet-stream",
          filename := fn, body := body } st).2.attachment = st.attachment := by
  rcases hfn with h | h <;> subst h <;> exact ⟨rfl, rfl⟩

/-- Witness for C8 with an absent filename. -/
theorem C8_witness :
    ((none : Option String) = none ∨ (none : Option String) = some (""))
    ∧ (set_response (fun _ => Except.ok (() : Unit))
        { code := 200, reason := "OK", contentType := "application/octet-stream",
          filename := none, body := [7] } WFState.empty
      = (.ok false, { WFState.empty with msg := some ("no content-disposition response header") })
    ∧ (set_response (fun _ => Except.ok (() : Unit))
        { code := 200, reason := "OK", contentType := "application/octet-stream",
          filename := none, body := [7] } WFState.empty).2.attachment
      = (WFState.empty : WFState Unit).attachment) :=
  ⟨Or.inl rfl,
    C8_missing_filename (fun _ => Except.ok ()) WFState.empty none (Or.inl rfl) 200 "OK" [7]⟩

/-! ### C1: which response fields are populated -/

theorem utf8Decode_nil : utf8Decode ([] : List Byte) = some ("") := rfl

/-- The response-field state at classification time: every response field
cleared, with only `_msg`, `http_code` and `http_reason` possibly already
set by `__api_request`. -/
def startState {X : Type} (m0 : Option String) (c0 : Option Nat) (r0 : Option String) :
    WFState X :=
  { WFState.empty with msg := m0, http_code := c0, http_reason := r0 }

/-- C1 counterexample: an XML response with the nonempty well-formed body
`<a/>` (on which `etree.fromstring` succeeds, modelled by the injected
parser returning success) classifies successfully with BOTH
`response_body` and `xml_element_root` populated, refuting the claim that
exactly one of the three payload fields is ever populated. -/
theorem C1_counterexample :
    (set_response (fun _ => Except.ok (() : Unit))
      { code := 200, reason := "OK", contentType := "text/xml", filename := none,
        body := strBytes ("<a/>") } WFState.empty).1 = SetResult.ok true
    ∧ ((set_response (fun _ => Except.ok (() : Unit))
      { code := 200, reason := "OK", contentType := "text/xml", filename := none,
        body := strBytes ("<a/>") } WFState.empty).2.response_body).isSome = true
    ∧ ((set_response (fun _ => Except.ok (() : Unit))
      { code := 200, reason := "OK", contentType := "text/xml", filename := none,
        body := strBytes ("<a/>") } WFState.empty).2.xml_element_root).isSome = true :=
  ⟨rfl, rfl, rfl⟩

/-- C1 (amended): on a successful classification, `attachment` excludes the
other payload fields (and leaves the response-type tag unset);
`xml_element_root` is populated only for XML responses and then always
together with `response_body`; `response_body` excludes `attachment` and
comes with a textual response-type tag.  An empty body for any recognized
textual/XML content type is a success with none of the three payload
fields populated.  (The original claim fails: a nonempty well-formed XML
body populates both `response_body` and `xml_element_root`, and an empty
body under `application/octet-stream` with a filename still populates
`attachment`.) -/
theorem C1_populated_fields {X : Type} (fromstring : List Byte → Except String X)
    (resp : HttpResponse) (m0 : Option String) (c0 : Option Nat) (r0 : Option String) :
    ((set_response fromstring resp (startState m0 c0 r0)).1 = SetResult.ok true →
      (((set_response fromstring resp (startState m0 c0 r0)).2.attachment).isSome = true →
        (set_response fromstring resp (startState m0 c0 r0)).2.response_body = none
        ∧ (set_response fromstring resp (startState m0 c0 r0)).2.xml_element_root = none
        ∧ (set_response fromstring resp (startState m0 c0 r0)).2.response_type = none)
      ∧ (((set_response fromstring resp (startState m0 c0 r0)).2.xml_element_root).isSome = true →
        ((set_response fromstring resp (startState m0 c0 r0)).2.response_body).isSome = true
        ∧ (set_response fromstring resp (startState m0 c0 r0)).2.response_type = some ("xml")
        ∧ (set_response fromstring resp (startState m0 c0 r0)).2.attachment = none)
      ∧ (((set_response fromstring resp (startState m0 c0 r0)).2.response_body).isSome = true →
        (set_response fromstring resp (startState m0 c0 r0)).2.attachment = none
        ∧ ((set_response fromstring resp (startState m0 c0 r0)).2.response_type = some ("xml")
          ∨ (set_response fromstring resp (startState m0 c0 r0)).2.response_type = some ("json")
          ∨ (set_response fromstring resp (startState m0 c0 r0)).2.response_type = some ("html")
          ∨ (set_response fromstring resp (startState m0 c0 r0)).2.response_type = some ("txt"))))
    ∧ (resp.body = [] →
      (resp.contentType = "application/xml" ∨ resp.contentType = "text/xml"
        ∨ resp.contentType = "application/json" ∨ resp.contentType = "text/html"
        ∨ resp.contentType = "text/plain") →
      (set_response fromstring resp (startState m0 c0 r0)).1 = SetResult.ok true
      ∧ (set_response fromstring resp (startState m0 c0 r0)).2.response_body = none
      ∧ (set_response fromstring resp (startState m0 c0 r0)).2.xml_element_root = none
      ∧ (set_response fromstring resp (startState m0 c0 r0)).2.attachment = none) := by
  constructor
  · unfold set_response set_stream_response set_xml_response set_json_response
      set_html_response set_txt_response set_text_response
    split_ifs with h0 h1 h2 h3 h4 h5 <;> (try dsimp only) <;> (repeat' split) <;>
      intro hok <;>
      (refine ⟨?_, ?_, ?_⟩ <;> intro hfield <;> simp_all [startState, WFState.empty])
  · intro hb hl
    unfold set_response set_stream_response set_xml_response set_json_response
      set_html_response set_txt_response set_text_response
    split_ifs with h0 h1 h2 h3 h4 h5 <;> (try dsimp only) <;> (repeat' split) <;>
      simp_all [startState, WFState.empty, utf8Decode_nil] <;>
      (rename_i heq hlen
       rw [← heq] at hlen
       exact hlen rfl)

/-- Concrete empty-body XML response used by the C1 witness. -/
def c1emptyXml : HttpResponse :=
  { code := 200, reason := "OK", contentType := "text/xml", filename := none, body := [] }

/-- Witness for C1 at an empty-body `text/xml` response. -/
theorem C1_witness :
    ((((set_response (fun _ => Except.ok (() : Unit)) c1emptyXml
          (startState none none none)).2.attachment).isSome = true →
        (set_response (fun _ => Except.ok (() : Unit)) c1emptyXml
          (startState none none none)).2.response_body = none
        ∧ (set_response (fun _ => Except.ok (() : Unit)) c1emptyXml
          (startState none none none)).2.xml_element_root = none
        ∧ (set_response (fun _ => Except.ok (() : Unit)) c1emptyXml
          (startState none none none)).2.response_type = none)
      ∧ (((set_response (fun _ => Except.ok (() : Unit)) c1emptyXml
          (startState none none none)).2.xml_element_root).isSome = true →
        ((set_response (fun _ => Except.ok (() : Unit)) c1emptyXml
          (startState none none none)).2.response_body).isSome = true
        ∧ (set_response (fun _ => Except.ok (() : Unit)) c1emptyXml
          (startState none none none)).2.response_type = some ("xml")
        ∧ (set_response (fun _ => Except.ok (() : Unit)) c1emptyXml
          (startState none none none)).2.attachment = none)
      ∧ (((set_response (fun _ => Except.ok (() : Unit)) c1emptyXml
          (startState none none none)).2.response_body).isSome = true →
        (set_response (fun _ => Except.ok (() : Unit)) c1emptyXml
          (startState none none none)).2.attachment = none
        ∧ ((set_response (fun _ => Except.ok (() : Unit)) c1emptyXml
            (startState none none none)).2.response_type = some ("xml")
          ∨ (set_response (fun _ => Except.ok (() : Unit)) c1emptyXml
            (startState none none none)).2.response_type = some ("json")
          ∨ (set_response (fun _ => Except.ok (() : Unit)) c1emptyXml
            (startState none none none)).2.response_type = some ("html")
          ∨ (set_response (fun _ => Except.ok (() : Unit)) c1emptyXml
            (startState none none none)).2.response_type = some ("txt"))))
    ∧ ((set_response (fun _ => Except.ok (() : Unit)) c1emptyXml
        (startState none none none)).1 = SetResult.ok true
      ∧ (set_response (fun _ => Except.ok (() : Unit)) c1emptyXml
        (startState none none none)).2.response_body = none
      ∧ (set_response (fun _ => Except.ok (() : Unit)) c1emptyXml
        (startState none none none)).2.xml_element_root = none
      ∧ (set_response (fun _ => Except.ok (() : Unit)) c1emptyXml
        (startState none none none)).2.attachment = none) :=
  ⟨(C1_populated_fields (fun _ => Except.ok ()) c1emptyXml none none none).1 rfl,
    (C1_populated_fields (fun _ => Except.ok ()) c1emptyXml none none none).2 rfl
      (Or.inr (Or.inl rfl))⟩

/-- Concrete one-field form used by the C2 witness. -/
def c2exampleForm : MultiPartFormData :=
  { boundary := strBytes ("_b"),
    parts := [{ headers := [strBytes ("Content-Disposition: form-data; name=\x22k\x22")],
                body := some (strBytes ("v")) }] }

/-- Witness for C2 on a concrete one-field form. -/
theorem C2_witness :
    c2exampleForm.boundary ≠ []
    ∧ (∀ p ∈ c2exampleForm.parts,
        noEarlyOcc (ddash ++ c2exampleForm.boundary) (crlf ++ (p.serialize ++ crlf)))
    ∧ splitOnSeg (ddash ++ c2exampleForm.boundary) c2exampleForm.http_body
      = [] :: ((c2exampleForm.parts.map (fun p => crlf ++ (p.serialize ++ crlf))) ++ [ddash]) :=
  ⟨by decide, by decide,
    (C2_http_body_roundtrip c2exampleForm (by decide) (by decide)).2.1⟩

/-! ### C6: every operation clears the response state first -/

/-- C6: every public operation clears all prior response fields before any
parameter building, file read or network activity: its entire outcome —
result and final state — is independent of the state left by any previous
call, so a failed call can never leave the caller reading a stale prior
success.  The last conjunct exhibits the failure case: when the exchange
itself fails, the final state is the cleared state with only the error
message set. -/
theorem C6_clear_response_first {X : Type} (fromstring : List Byte → Except String X)
    (ex : WFRequest → Except String HttpResponse)
    (readFile : String → Except String (List Byte)) (cfg : WFConfig) (bnd : List Byte)
    (st st' : WFState X)
    (hash format url date platform file_type verdict email comment file : Option String)
    (hashes links : Option (List String)) (e : String) :
    PanWFapi.report fromstring ex cfg hash format url st
      = PanWFapi.report fromstring ex cfg hash format url st'
    ∧ PanWFapi.verdict fromstring ex cfg hash url st
      = PanWFapi.verdict fromstring ex cfg hash url st'
    ∧ PanWFapi.verdicts fromstring ex cfg bnd hashes st
      = PanWFapi.verdicts fromstring ex cfg bnd hashes st'
    ∧ PanWFapi.verdicts_changed fromstring ex cfg date st
      = PanWFapi.verdicts_changed fromstring ex cfg date st'
    ∧ PanWFapi.sample fromstring ex cfg hash st
      = PanWFapi.sample fromstring ex cfg hash st'
    ∧ PanWFapi.pcap fromstring ex cfg hash platform st
      = PanWFapi.pcap fromstring ex cfg hash platform st'
    ∧ PanWFapi.submit fromstring ex readFile cfg bnd file url links st
      = PanWFapi.submit fromstring ex readFile cfg bnd file url links st'
    ∧ PanWFapi.change_request fromstring ex cfg bnd hash verdict email comment st
      = PanWFapi.change_request fromstring ex cfg bnd hash verdict email comment st'
    ∧ PanWFapi.testfile fromstring ex cfg file_type st
      = PanWFapi.testfile fromstring ex cfg file_type st'
    ∧ PanWFapi.report fromstring (fun _ => Except.error e) cfg hash format url st
      = (OpResult.raised (some e), { WFState.empty with msg := some e }) :=
  ⟨rfl, rfl, rfl, rfl, rfl, rfl, rfl, rfl, rfl, rfl⟩

/-! ### C3: the submit precondition fires before file or network activity -/

/-- C3: calling `submit` with both `file` and `url` given (as non-empty,
hence truthy, strings — see C10 for the truthiness fine print), or with
none of `file`, `url`, `links` given, raises exactly the precondition
error `must submit one of file, url or links`; the outcome is the same for
every file-reading function and every network exchange function, so the
failure happens before any file read or network call is attempted. -/
theorem C3_submit_precondition {X : Type} (fromstring : List Byte → Except String X)
    (ex : WFRequest → Except String HttpResponse)
    (readFile : String → Except String (List Byte)) (cfg : WFConfig) (bnd : List Byte)
    (st : WFState X) (f u : String) (links : Option (List String))
    (hf : f ≠ "") (hu : u ≠ "") :
    PanWFapi.submit fromstring ex readFile cfg bnd (some f) (some u) links st
      = (.raised (some ("must submit one of file, url or links")), WFState.empty)
    ∧ PanWFapi.submit fromstring ex readFile cfg bnd none none none st
      = (.raised (some ("must submit one of file, url or links")), WFState.empty) := by
  constructor
  · unfold PanWFapi.submit
    have h1 : pyBoolOptStr (some f) = true := by simp [pyBoolOptStr, pyBoolStr, hf]
    have h2 : pyBoolOptStr (some u) = true := by simp [pyBoolOptStr, pyBoolStr, hu]
    rw [h1, h2]
    cases hb : pyBoolOptList links <;> simp [clear_response]
  · rfl

/-- Witness for C3 with concrete non-empty file and url strings. -/
theorem C3_witness :
    ("sample.exe" : String) ≠ ""
    ∧ ("http://example.com" : String) ≠ ""
    ∧ (PanWFapi.submit (fun _ => Except.ok (() : Unit))
        (fun _ => Except.error ("no network")) (fun _ => Except.error ("no fs"))
        { api_key := "KEY", agent := none, uriBase := "https://h" } [95]
        (some ("sample.exe")) (some ("http://example.com")) none WFState.empty
      = (.raised (some ("must submit one of file, url or links")), WFState.empty)
    ∧ PanWFapi.submit (fun _ => Except.ok (() : Unit))
        (fun _ => Except.error ("no network")) (fun _ => Except.error ("no fs"))
        { api_key := "KEY", agent := none, uriBase := "https://h" } [95]
        none none none WFState.empty
      = (.raised (some ("must submit one of file, url or links")), WFState.empty)) :=
  ⟨by decide, by decide,
    C3_submit_precondition (fun _ => Except.ok ()) (fun _ => Except.error ("no network"))
      (fun _ => Except.error ("no fs"))
      { api_key := "KEY", agent := none, uriBase := "https://h" } [95]
      WFState.empty ("sample.exe") "http://example.com" none (by decide) (by decide)⟩

/-! ### C10: the submit precondition counts truthiness, not presence -/

theorem ofOpt_some {α : Type} (a : α) : ofOpt (some a) = Except.ok a := rfl

theorem except_bind_ok {ε α β : Type} (a : α) (f : α → Except ε β) :
    (Except.ok a : Except ε α) >>= f = f a := rfl

theorem except_pure {ε α : Type} (a : α) : (pure a : Except ε α) = Except.ok a := rfl

/-- C10: the exactly-one-of check in `submit` evaluates Python truthiness:
a call passing only `file=""`, or only `links=[]`, raises the precondition
error even though exactly one parameter was passed; while a falsy value of
one parameter (`links=[]`) combined with a truthy value of another
(a non-empty `url`) is accepted as a single URL submission — the call gets
past the precondition and all the way to the network exchange, whose
failure it then reports. -/
theorem C10_truthiness {X : Type} (fromstring : List Byte → Except String X)
    (ex : WFRequest → Except String HttpResponse)
    (readFile : String → Except String (List Byte)) (cfg : WFConfig) (bnd : List Byte)
    (st : WFState X) (u e : String) (kb ub : List Byte)
    (hu : u ≠ "") (hkey : encodeLatin1 cfg.api_key = some kb)
    (hurl : encodeLatin1 u = some ub) (hagent : cfg.agent = none) :
    PanWFapi.submit fromstring ex readFile cfg bnd (some ("")) none none st
      = (.raised (some ("must submit one of file, url or links")), WFState.empty)
    ∧ PanWFapi.submit fromstring ex readFile cfg bnd none none (some []) st
      = (.raised (some ("must submit one of file, url or links")), WFState.empty)
    ∧ PanWFapi.submit fromstring (fun _ => Except.error e) readFile cfg bnd
        none (some u) (some []) st
      = (.raised (some e), { WFState.empty with msg := some e }) := by
  refine ⟨rfl, rfl, ?_⟩
  have h1 : (MultiPartFormData.init bnd).add_field ("apikey") cfg.api_key
      = some { boundary := bnd,
               parts := [{ headers := (FormDataPart.mkBase ("apikey")).headers,
                           body := some kb }] } := by
    unfold MultiPartFormData.add_field FormDataPart.init FormDataPart.add_body
    dsimp only
    rw [hkey]
    rfl
  have h2 : ({ boundary := bnd,
               parts := [{ headers := (FormDataPart.mkBase ("apikey")).headers,
                           body := some kb }] } : MultiPartFormData).add_field ("url") u
      = some { boundary := bnd,
               parts := [{ headers := (FormDataPart.mkBase ("apikey")).headers,
                           body := some kb },
                         { headers := (FormDataPart.mkBase ("url")).headers,
                           body := some ub }] } := by
    unfold MultiPartFormData.add_field FormDataPart.init FormDataPart.add_body
    dsimp only
    rw [hurl]
    rfl
  have hform : submit_form readFile cfg bnd none (some u) (some [])
      = Except.ok { boundary := bnd,
                    parts := [{ headers := (FormDataPart.mkBase ("apikey")).headers,
                                body := some kb },
                              { headers := (FormDataPart.mkBase ("url")).headers,
                                body := some ub }] } := by
    unfold submit_form
    rw [hagent]
    dsimp only
    rw [h1]
    simp only [ofOpt_some, except_bind_ok, except_pure]
    rw [h2]
    simp only [ofOpt_some, except_bind_ok, except_pure]
    rfl
  unfold PanWFapi.submit
  have hcond : (cond (pyBoolOptStr (none : Option String)) 1 0)
      + (cond (pyBoolOptStr (some u)) 1 0)
      + (cond (pyBoolOptList (some ([] : List String))) 1 0) = 1 := by
    simp [pyBoolOptStr, pyBoolStr, pyBoolOptList, beq_eq_false_iff_ne.mpr hu]
  rw [hcond]
  show runForm fromstring (fun _ => Except.error e) cfg.uriBase ("/publicapi/submit/url")
      (submit_form readFile cfg bnd none (some u) (some [])) WFState.empty = _
  rw [hform]
  rfl

/-- Witness for C10 with a concrete URL and empty-string/empty-list
falsy arguments. -/
theorem C10_witness :
    ("http://example.com" : String) ≠ ""
    ∧ encodeLatin1 ("KEY") = some ([75, 69, 89])
    ∧ encodeLatin1 ("http://example.com")
      = some ((encodeLatin1 ("http://example.com")).getD [])
    ∧ (PanWFapi.submit (fun _ => Except.ok (() : Unit))
        (fun _ => Except.error ("no network")) (fun _ => Except.error ("no fs"))
        { api_key := "KEY", agent := none, uriBase := "https://h" } [95]
        (some ("")) none none WFState.empty
      = (.raised (some ("must submit one of file, url or links")), WFState.empty)
    ∧ PanWFapi.submit (fun _ => Except.ok (() : Unit))
        (fun _ => Except.error ("no network")) (fun _ => Except.error ("no fs"))
        { api_key := "KEY", agent := none, uriBase := "https://h" } [95]
        none none (some []) WFState.empty
      = (.raised (some ("must submit one of file, url or links")), WFState.empty)
    ∧ PanWFapi.submit (fun _ => Except.ok (() : Unit))
        (fun _ => Except.error ("boom")) (fun _ => Except.error ("no fs"))
        { api_key := "KEY", agent := none, uriBase := "https://h" } [95]
        none (some ("http://example.com")) (some []) WFState.empty
      = (.raised (some ("boom")), { WFState.empty with msg := some ("boom") })) :=
  ⟨by decide, by decide, by decide,
    C10_truthiness (fun _ => Except.ok ()) (fun _ => Except.error ("no network"))
      (fun _ => Except.error ("no fs"))
      { api_key := "KEY", agent := none, uriBase := "https://h" } [95]
      WFState.empty ("http://example.com") "boom" [75, 69, 89]
      ((encodeLatin1 ("http://example.com")).getD [])
      (by decide) (by decide) (by decide) rfl⟩

/-! ### C4: the multi-link payload and the `panlnk` magic marker -/

/-- The two-part form `submit` builds for a multi-link submission (agent
unset): the apikey field, then the `pan` file part with the given body. -/
def linksForm (bnd : List Byte) (kb bodyBytes : List Byte) : MultiPartFormData :=
  { boundary := bnd,
    parts := [{ headers := (FormDataPart.mkBase ("apikey")).headers, body := some kb },
              { headers := [strBytes ("Content-Disposition: form-data")
                    ++ strBytes ("; ") ++ encode_field ("name") ("file")
                    ++ strBytes ("; ") ++ encode_field ("filename") ("pan"),
                  strBytes ("Content-Type: application/octet-stream")],
                body := some bodyBytes }] }

/-- C4: submitting a `links` list of length at least 2 uploads a file part
(named `pan`): when the first link is not the magic marker `panlnk`, its
body is the marker line followed by all links, each on its own line
(`panlnk` + newline + the links joined by newlines, encoded latin-1); when
the first link already equals `panlnk`, the body is just the links joined
by newlines, with no second marker added. -/
theorem C4_links_magic (readFile : String → Except String (List Byte)) (cfg : WFConfig)
    (bnd : List Byte) (links : List String) (kb bA bB : List Byte)
    (hlen2 : 2 ≤ links.length) (hagent : cfg.agent = none)
    (hkey : encodeLatin1 cfg.api_key = some kb) :
    (links.headD ("") ≠ "panlnk" →
      encodeLatin1 ("panlnk" ++ "\n" ++ String.intercalate ("\n") links) = some bA →
      submit_form readFile cfg bnd none none (some links) = Except.ok (linksForm bnd kb bA))
    ∧ (links.headD ("") = "panlnk" →
      encodeLatin1 (String.intercalate ("\n") links) = some bB →
      submit_form readFile cfg bnd none none (some links) = Except.ok (linksForm bnd kb bB)) := by
  have h1 : (MultiPartFormData.init bnd).add_field ("apikey") cfg.api_key
      = some { boundary := bnd,
               parts := [{ headers := (FormDataPart.mkBase ("apikey")).headers,
                           body := some kb }] } := by
    unfold MultiPartFormData.add_field FormDataPart.init FormDataPart.add_body
    dsimp only
    rw [hkey]
    rfl
  constructor
  · intro hmagic hA
    have h3 : ({ boundary := bnd,
                 parts := [{ headers := (FormDataPart.mkBase ("apikey")).headers,
                             body := some kb }] } : MultiPartFormData).add_file
          (some ("pan")) (some (.str ("panlnk" ++ "\n" ++ String.intercalate ("\n") links)))
        = some (linksForm bnd kb bA) := by
      unfold MultiPartFormData.add_file FormDataPart.add_body linksForm
      dsimp only
      rw [hA]
      rfl
    unfold submit_form
    rw [hagent]
    dsimp only
    rw [h1]
    simp only [ofOpt_some, except_bind_ok, except_pure]
    rw [if_neg (by omega), if_pos (by omega), if_neg hmagic, h3]
    rfl
  · intro hmagic hB
    have h3 : ({ boundary := bnd,
                 parts := [{ headers := (FormDataPart.mkBase ("apikey")).headers,
                             body := some kb }] } : MultiPartFormData).add_file
          (some ("pan")) (some (.str (String.intercalate ("\n") links)))
        = some (linksForm bnd kb bB) := by
      unfold MultiPartFormData.add_file FormDataPart.add_body linksForm
      dsimp only
      rw [hB]
      rfl
    unfold submit_form
    rw [hagent]
    dsimp only
    rw [h1]
    simp only [ofOpt_some, except_bind_ok, except_pure]
    rw [if_neg (by omega), if_pos (by omega), if_pos hmagic, h3]
    rfl

/-- Witness for C4: two links, no magic marker, concrete key. -/
theorem C4_witness :
    2 ≤ (["http://a", "http://b"] : List String).length
    ∧ (["http://a", "http://b"] : List String).headD ("") ≠ "panlnk"
    ∧ ({ api_key := "KEY", agent := none, uriBase := "https://h" } : WFConfig).agent = none
    ∧ encodeLatin1 (({ api_key := "KEY", agent := none, uriBase := "https://h" } : WFConfig).api_key)
      = some [75, 69, 89]
    ∧ encodeLatin1 ("panlnk" ++ "\n" ++ String.intercalate ("\n") ["http://a", "http://b"])
      = some ((encodeLatin1 ("panlnk" ++ "\n"
          ++ String.intercalate ("\n") ["http://a", "http://b"])).getD [])
    ∧ submit_form (fun _ => Except.error ("no fs"))
        { api_key := "KEY", agent := none, uriBase := "https://h" } [95]
        none none (some ["http://a", "http://b"])
      = Except.ok (linksForm [95] [75, 69, 89]
          ((encodeLatin1 ("panlnk" ++ "\n"
            ++ String.intercalate ("\n") ["http://a", "http://b"])).getD [])) :=
  ⟨by decide, by decide, rfl, by decide, by decide,
    (C4_links_magic (fun _ => Except.error ("no fs"))
      { api_key := "KEY", agent := none, uriBase := "https://h" } [95]
      ["http://a", "http://b"] [75, 69, 89]
      ((encodeLatin1 ("panlnk" ++ "\n"
        ++ String.intercalate ("\n") ["http://a", "http://b"])).getD []) []
      (by decide) rfl (by decide)).1 (by decide) (by decide)⟩

/-! ### C5: part headers -/

theorem no_ct_in_cd_line (tail : List Byte) :
    ¬ strBytes ("Content-Type") <+: (strBytes ("Content-Disposition: form-data") ++ tail) := by
  intro hpre
  have hlen : (strBytes ("Content-Type")).length
      ≤ (strBytes ("Content-Disposition: form-data")).length := by decide
  have hshort := prefix_shorten _ _ tail hpre hlen
  exact absurd hshort (by decide)

/-- C5 counterexample: `add_file` called without a body (both arguments
default to `None` in the source) appends a file part that carries no
Content-Type header at all, refuting the claim that every file part
carries `Content-Type: application/octet-stream`. -/
theorem C5_counterexample :
    (MultiPartFormData.init (strBytes ("_b"))).add_file none none
      = some { boundary := strBytes ("_b"),
               parts := [{ headers := [strBytes ("Content-Disposition: form-data; name=\x22file\x22")],
                           body := none }] }
    ∧ ¬ (strBytes ("Content-Type: application/octet-stream")
          ∈ [strBytes ("Content-Disposition: form-data; name=\x22file\x22")])
    ∧ (∀ hl ∈ [strBytes ("Content-Disposition: form-data; name=\x22file\x22")],
        ¬ strBytes ("Content-Type") <+: hl) := by
  refine ⟨by decide, by decide, by decide⟩


theorem cd_prefix2 (a b : List Byte) :
    strBytes ("Content-Disposition: form-data")
      <+: (strBytes ("Content-Disposition: form-data") ++ a ++ b) := by
  rw [List.append_assoc]
  exact List.prefix_append _ _

theorem cd_prefix4 (a b c d : List Byte) :
    strBytes ("Content-Disposition: form-data")
      <+: (strBytes ("Content-Disposition: form-data") ++ a ++ b ++ c ++ d) := by
  simp only [List.append_assoc]
  exact List.prefix_append _ _

theorem no_ct_in_cd2 (a b : List Byte) :
    ¬ strBytes ("Content-Type")
      <+: (strBytes ("Content-Disposition: form-data") ++ a ++ b) := by
  rw [List.append_assoc]
  exact no_ct_in_cd_line _

theorem no_ct_in_cd4 (a b c d : List Byte) :
    ¬ strBytes ("Content-Type")
      <+: (strBytes ("Content-Disposition: form-data") ++ a ++ b ++ c ++ d) := by
  simp only [List.append_assoc]
  exact no_ct_in_cd_line _

/-- A file part as built by `add_file` when a body is given: the given
header lines plus the binary Content-Type header, and the body bytes. -/
def filePartOf (hdrs : List (List Byte)) (bodyBytes : List Byte) : FormDataPart :=
  { headers := hdrs ++ [strBytes ("Content-Type: application/octet-stream")],
    body := some bodyBytes }

/-- C5 (amended): every part constructed by `add_field` or `add_file`
starts with a Content-Disposition header line; parts created as plain
fields carry no Content-Type header; a file part created with a body
carries `Content-Type: application/octet-stream`, while a file part
created without a body (allowed by the `body=None` default of `add_file`)
carries no Content-Type header. -/
theorem C5_part_headers (f : MultiPartFormData) (name value : String)
    (fn : Option String) (bd : Option PyData) (g g2 : MultiPartFormData)
    (hfield : f.add_field name value = some g)
    (hfile : f.add_file fn bd = some g2) :
    (∃ p, g.parts = f.parts ++ [p]
      ∧ strBytes ("Content-Disposition: form-data") <+: p.headers.headD []
      ∧ ∀ hl ∈ p.headers, ¬ strBytes ("Content-Type") <+: hl)
    ∧ (∃ q, g2.parts = f.parts ++ [q]
      ∧ strBytes ("Content-Disposition: form-data") <+: q.headers.headD []
      ∧ (bd.isSome = true → strBytes ("Content-Type: application/octet-stream") ∈ q.headers)
      ∧ (bd = none → ∀ hl ∈ q.headers, ¬ strBytes ("Content-Type") <+: hl)) := by
  constructor
  · cases henc : encodeLatin1 value with
    | none =>
      have hnone : f.add_field name value = none := by
        unfold MultiPartFormData.add_field FormDataPart.init FormDataPart.add_body
        dsimp only
        rw [henc]
        rfl
      rw [hnone] at hfield
      exact absurd hfield (by simp)
    | some bs =>
      have hsome : f.add_field name value
          = some { boundary := f.boundary,
                   parts := f.parts ++ [{ headers := (FormDataPart.mkBase name).headers,
                                          body := some bs }] } := by
        unfold MultiPartFormData.add_field FormDataPart.init FormDataPart.add_body
        dsimp only
        rw [henc]
        rfl
      rw [hsome] at hfield
      have hg := Option.some.inj hfield
      refine ⟨{ headers := (FormDataPart.mkBase name).headers, body := some bs },
        by rw [← hg], ?_, ?_⟩
      · exact cd_prefix2 _ _
      · intro hl hmem
        have heq : hl = strBytes ("Content-Disposition: form-data")
            ++ strBytes ("; ") ++ encode_field ("name") name := by
          simpa [FormDataPart.mkBase, FormDataPart.add_header, FormDataPart.append_header]
            using hmem
        rw [heq]
        exact no_ct_in_cd2 _ _
  · cases fn with
    | none =>
      cases bd with
      | none =>
        have hred : f.add_file none none
            = some { boundary := f.boundary,
                     parts := f.parts ++ [FormDataPart.mkBase ("file")] } := by
          unfold MultiPartFormData.add_file
          rfl
        rw [hred] at hfile
        have hg := Option.some.inj hfile
        refine ⟨FormDataPart.mkBase ("file"), by rw [← hg], cd_prefix2 _ _,
          by intro hx; exact absurd hx (by simp), ?_⟩
        intro _ hl hmem
        have heq : hl = strBytes ("Content-Disposition: form-data")
            ++ strBytes ("; ") ++ encode_field ("name") ("file") := by
          simpa [FormDataPart.mkBase, FormDataPart.add_header, FormDataPart.append_header]
            using hmem
        rw [heq]
        exact no_ct_in_cd2 _ _
      | some b =>
        cases b with
        | bytes bb =>
          have hred : f.add_file none (some (.bytes bb))
              = some { boundary := f.boundary,
                       parts := f.parts
                         ++ [filePartOf (FormDataPart.mkBase ("file")).headers bb] } := by
            unfold MultiPartFormData.add_file FormDataPart.add_body FormDataPart.add_header
              filePartOf
            rfl
          rw [hred] at hfile
          have hg := Option.some.inj hfile
          refine ⟨_, by rw [← hg], ?_, by intro _; simp [filePartOf],
            by intro hx; exact absurd hx (by simp)⟩
          unfold filePartOf
          exact cd_prefix2 _ _
        | str s =>
          cases hs : encodeLatin1 s with
          | none =>
            have hred : f.add_file none (some (.str s)) = none := by
              unfold MultiPartFormData.add_file FormDataPart.add_body FormDataPart.add_header
              dsimp only
              rw [hs]
              rfl
            rw [hred] at hfile
            exact absurd hfile (by simp)
          | some bs =>
            have hred : f.add_file none (some (.str s))
                = some { boundary := f.boundary,
                         parts := f.parts
                           ++ [filePartOf (FormDataPart.mkBase ("file")).headers bs] } := by
              unfold MultiPartFormData.add_file FormDataPart.add_body FormDataPart.add_header
                filePartOf
              dsimp only
              rw [hs]
              rfl
            rw [hred] at hfile
            have hg := Option.some.inj hfile
            refine ⟨_, by rw [← hg], ?_, by intro _; simp [filePartOf],
              by intro hx; exact absurd hx (by simp)⟩
            unfold filePartOf
            exact cd_prefix2 _ _
    | some x =>
      cases bd with
      | none =>
        have hred : f.add_file (some x) none
            = some { boundary := f.boundary,
                     parts := f.parts
                       ++ [(FormDataPart.mkBase ("file")).append_header ("filename") x] } := by
          unfold MultiPartFormData.add_file
          rfl
        rw [hred] at hfile
        have hg := Option.some.inj hfile
        refine ⟨_, by rw [← hg], cd_prefix4 _ _ _ _,
          by intro hx; exact absurd hx (by simp), ?_⟩
        intro _ hl hmem
        have heq : hl = strBytes ("Content-Disposition: form-data")
            ++ strBytes ("; ") ++ encode_field ("name") ("file")
            ++ strBytes ("; ") ++ encode_field ("filename") x := by
          simpa [FormDataPart.mkBase, FormDataPart.add_header, FormDataPart.append_header]
            using hmem
        rw [heq]
        exact no_ct_in_cd4 _ _ _ _
      | some b =>
        cases b with
        | bytes bb =>
          have hred : f.add_file (some x) (some (.bytes bb))
              = some { boundary := f.boundary,
                       parts := f.parts ++ [filePartOf
                         ((FormDataPart.mkBase ("file")).append_header ("filename") x).headers
                         bb] } := by
            unfold MultiPartFormData.add_file FormDataPart.add_body FormDataPart.add_header
              filePartOf
            rfl
          rw [hred] at hfile
          have hg := Option.some.inj hfile
          refine ⟨_, by rw [← hg], ?_, by intro _; simp [filePartOf],
            by intro hx; exact absurd hx (by simp)⟩
          unfold filePartOf
          exact cd_prefix4 _ _ _ _
        | str s =>
          cases hs : encodeLatin1 s with
          | none =>
            have hred : f.add_file (some x) (some (.str s)) = none := by
              unfold MultiPartFormData.add_file FormDataPart.add_body FormDataPart.add_header
              dsimp only
              rw [hs]
              rfl
            rw [hred] at hfile
            exact absurd hfile (by simp)
          | some bs =>
            have hred : f.add_file (some x) (some (.str s))
                = some { boundary := f.boundary,
                         parts := f.parts ++ [filePartOf
                           ((FormDataPart.mkBase ("file")).append_header ("filename") x).headers
                           bs] } := by
              unfold MultiPartFormData.add_file FormDataPart.add_body FormDataPart.add_header
                filePartOf
              dsimp only
              rw [hs]
              rfl
            rw [hred] at hfile
            have hg := Option.some.inj hfile
            refine ⟨_, by rw [← hg], ?_, by intro _; simp [filePartOf],
              by intro hx; exact absurd hx (by simp)⟩
            unfold filePartOf
            exact cd_prefix4 _ _ _ _

/-- The form produced by the C5 witness field addition. -/
def c5g : MultiPartFormData :=
  { boundary := strBytes ("_B"),
    parts := [{ headers := [strBytes ("Content-Disposition: form-data; name=\x22k\x22")],
                body := some (strBytes ("v")) }] }

/-- The form produced by the C5 witness file addition. -/
def c5g2 : MultiPartFormData :=
  { boundary := strBytes ("_B"),
    parts := [{ headers := [strBytes ("Content-Disposition: form-data; name=\x22file\x22; filename=\x22x\x22"),
                  strBytes ("Content-Type: application/octet-stream")],
                body := some [1] }] }

/-- Witness for C5 on a concrete field part and file part. -/
theorem C5_witness :
    (MultiPartFormData.init (strBytes ("_B"))).add_field ("k") ("v") = some c5g
    ∧ (MultiPartFormData.init (strBytes ("_B"))).add_file (some ("x"))
        (some (.bytes [1])) = some c5g2
    ∧ ((∃ p, c5g.parts = (MultiPartFormData.init (strBytes ("_B"))).parts ++ [p]
        ∧ strBytes ("Content-Disposition: form-data") <+: p.headers.headD []
        ∧ ∀ hl ∈ p.headers, ¬ strBytes ("Content-Type") <+: hl)
      ∧ (∃ q, c5g2.parts = (MultiPartFormData.init (strBytes ("_B"))).parts ++ [q]
        ∧ strBytes ("Content-Disposition: form-data") <+: q.headers.headD []
        ∧ ((some (PyData.bytes [1])).isSome = true →
            strBytes ("Content-Type: application/octet-stream") ∈ q.headers)
        ∧ (some (PyData.bytes [1]) = none →
            ∀ hl ∈ q.headers, ¬ strBytes ("Content-Type") <+: hl))) :=
  ⟨by decide, by decide,
    C5_part_headers (MultiPartFormData.init (strBytes ("_B"))) "k" "v" (some ("x"))
      (some (.bytes [1])) c5g c5g2 (by decide) (by decide)⟩
